import Mathlib

/-!
Shallow embedding of the TheraBot conversation and command engine.

The definitions below are translated from the repository's JavaScript
sources:

* the conversation / user-data store (`saveConversation`, `saveMoodData`,
  `getMoodHistory`, `setPremiumStatus`, `isPremiumUser`,
  `getConversationHistory`, `clearConversationHistory`);
* the mood regex and prompt-tagging logic of
  `src/azure_openai/openai_service.js` (`processMessage`);
* the retry loop (`retryOperation`), command dispatch (`handleCommand`) and
  inbound-message handler of the whatsapp-web.js entry point, together with
  the Twilio webhook variant's `sendMoodHistory`, `getMoodEmoji`,
  `handleExerciseRequest` and `handleAffirmationRequest`.

JavaScript `Map`s are modelled as functions `String → Option α`;
`Date.now()` is passed in explicitly as a `Nat` parameter `now`.  Rendering
of `Date` objects (`toLocaleDateString`, `getMonth`/`getDate`) and the
floating-point mood average of the web variant are abstracted as parameters
of an `Env` structure, since they depend on locale/time zone and IEEE
floats respectively; no claim depends on their output.
-/

namespace TheraBot

/-- One entry of a conversation history: `{ role, content }`. -/
structure ChatMessage where
  role : String
  content : String
deriving DecidableEq, Repr

/-- One entry of a user's mood log: `{ score, timestamp }`. -/
structure MoodEntry where
  score : Nat
  timestamp : Nat
deriving DecidableEq, Repr

/-- A record of the `userData` map.  In the JavaScript source the
`moodData` field may be absent; an absent field behaves exactly like `[]`
through every operation (`getMoodHistory` returns `[]`, `saveMoodData`
initialises it), so it is modelled as a plain list. -/
structure UserRecord where
  isPremium : Bool
  lastActivity : Nat
  moodData : List MoodEntry
deriving DecidableEq, Repr

/-- The module-level state of `conversation_store.js`: the `conversations`
and `userData` maps. -/
structure Store where
  conversations : String → Option (List ChatMessage)
  userData : String → Option UserRecord

/-- The initial state: both maps empty. -/
def emptyStore : Store := ⟨fun _ => none, fun _ => none⟩

/-- `MAX_HISTORY_LENGTH` — free-tier turn capacity. -/
def MAX_HISTORY_LENGTH : Nat := 10

/-- `PREMIUM_MAX_HISTORY_LENGTH` — premium turn capacity. -/
def PREMIUM_MAX_HISTORY_LENGTH : Nat := 50

/-- ASCII lower-casing of a string, as a character list (models
JavaScript `toLowerCase()` / the regex `i` flag on the ASCII inputs the
program uses). -/
def lowerChars (s : String) : List Char := s.toList.map Char.toLower

/-- Character class `[:\s]` of the mood regex (`\s` modelled as
whitespace). -/
def isSepChar (c : Char) : Bool := c = ':' || c.isWhitespace

/-- The required lead-in alternation `(?:my mood is|i feel|i am feeling|mood)`
of the mood regex.  No two alternatives are prefixes of a common string, so
alternation order is immaterial. -/
def moodLeadIns : List (List Char) :=
  ["my mood is".toList, "i feel".toList, "i am feeling".toList, "mood".toList]

/-- After the lead-in and separators, the regex tail `([1-9]|10)(?:\/10)?$`
accepts exactly: a digit 1–9, a digit 1–9 followed by `/10`, `10`, or
`10/10`; returns the captured score. -/
def moodScoreTail : List Char → Option Nat
  | [c] => if '1' ≤ c ∧ c ≤ '9' then some (c.toNat - '0'.toNat) else none
  | [c, '/', '1', '0'] => if '1' ≤ c ∧ c ≤ '9' then some (c.toNat - '0'.toNat) else none
  | ['1', '0'] => some 10
  | ['1', '0', '/', '1', '0'] => some 10
  | _ => none

/-- Try the lead-in alternatives in order against the lowered text. -/
def moodMatchAux : List (List Char) → List Char → Option Nat
  | [], _ => none
  | p :: ps, t =>
    if p.isPrefixOf t then
      match moodScoreTail ((t.drop p.length).dropWhile isSepChar) with
      | some n => some n
      | none => moodMatchAux ps t
    else moodMatchAux ps t

/-- The mood regex
`/^(?:my mood is|i feel|i am feeling|mood)[:\s]*([1-9]|10)(?:\/10)?$/i`
(it appears verbatim in both `openai_service.js` and
`conversation_store.js`): returns the captured score on a full match.
Since `[:\s]` contains no digit, greedy separator consumption loses no
match. -/
def moodRegexMatch (message : String) : Option Nat :=
  moodMatchAux moodLeadIns (lowerChars message)

/-- Substring test on character lists (models JavaScript
`String.prototype.includes`). -/
def hasSubstring (sub : List Char) : List Char → Bool
  | [] => sub.isEmpty
  | c :: cs => sub.isPrefixOf (c :: cs) || hasSubstring sub cs

/-- `message.toLowerCase().includes(phrase)` for a lowercase ASCII
phrase. -/
def includesCI (message : String) (phrase : String) : Bool :=
  hasSubstring phrase.toList (lowerChars message)

/-- The feature test for a coping exercise in `processMessage`. -/
def mentionsExercise (message : String) : Bool :=
  includesCI message "coping exercise" || includesCI message "help me cope"

/-- The feature test for an affirmation in `processMessage`. -/
def mentionsAffirmation (message : String) : Bool :=
  includesCI message "affirmation" || includesCI message "positive thought"

/-- The `userMessage` that `processMessage` forwards upstream: the three
rewrites are sequential independent `if`s, each later one overwriting the
result of the earlier ones (each tag is prepended to the *original*
`message`). -/
def processMessagePrompt (message : String) : String :=
  let m1 :=
    match moodRegexMatch message with
    | some score =>
      "[MOOD TRACKING] User reported mood score: " ++ toString score ++
        "/10. Original message: \"" ++ message ++ "\""
    | none => message
  let m2 := if mentionsExercise message then "[COPING EXERCISE REQUEST] " ++ message else m1
  let m3 := if mentionsAffirmation message then "[AFFIRMATION REQUEST] " ++ message else m2
  m3

/-- The derived intent of one inbound message. -/
inductive Intent where
  | SlashCommand (name : String)
  | MoodReport (score : Nat)
  | ExerciseRequest
  | AffirmationRequest
  | Freeform
deriving DecidableEq, Repr

/-- `message.body.startsWith('/')` — the slash-command test of the
inbound-message handlers. -/
def startsWithSlash (s : String) : Bool :=
  match s.toList with
  | c :: _ => c = '/'
  | [] => false

/-- `message.body.split(' ')[0].toLowerCase()` — the command token of the
whatsapp-web.js `handleCommand` (the characters before the first space,
lower-cased). -/
def commandToken (body : String) : String :=
  String.mk ((body.toList.takeWhile (fun c => c ≠ ' ')).map Char.toLower)

/-- The intent classification realised by the code: the slash check of the
inbound-message handler first, then the three sequential tag rewrites of
`processMessage`, the last applicable rewrite winning exactly as in
`processMessagePrompt`. -/
def classify (text : String) : Intent :=
  if startsWithSlash text then .SlashCommand (commandToken text)
  else
    let tag1 : Intent :=
      match moodRegexMatch text with
      | some score => .MoodReport score
      | none => .Freeform
    let tag2 := if mentionsExercise text then .ExerciseRequest else tag1
    if mentionsAffirmation text then .AffirmationRequest else tag2

/-- `saveMoodData(userId, moodScore)` of `conversation_store.js`: appends
`{ score, timestamp: Date.now() }` to the user's mood log, creating a
default user record when none exists. -/
def saveMoodData (userId : String) (moodScore : Nat) (now : Nat) (s : Store) : Store :=
  let user := (s.userData userId).getD { isPremium := false, lastActivity := now, moodData := [] }
  let user := { user with moodData := user.moodData ++ [⟨moodScore, now⟩] }
  { s with userData := fun k => if k = userId then some user else s.userData k }

/-- `saveConversation(userId, userMessage, botResponse)` of
`conversation_store.js`: push the user and assistant turns, log a mood
score when the user message matches the mood regex, refresh
`lastActivity`, then trim the history to `2 * maxLength` recent entries
(retaining a leading system-role message) where `maxLength` is chosen off
the current premium flag. -/
def saveConversation (userId userMessage botResponse : String) (now : Nat) (s : Store) : Store :=
  let history := ((s.conversations userId).getD []) ++
    [⟨"user", userMessage⟩, ⟨"assistant", botResponse⟩]
  let s :=
    match moodRegexMatch userMessage with
    | some moodScore => saveMoodData userId moodScore now s
    | none => s
  let user := (s.userData userId).getD { isPremium := false, lastActivity := now, moodData := [] }
  let user := { user with lastActivity := now }
  let s := { s with userData := fun k => if k = userId then some user else s.userData k }
  let maxLength := if user.isPremium then PREMIUM_MAX_HISTORY_LENGTH else MAX_HISTORY_LENGTH
  let newHistory :=
    if history.length > maxLength * 2 then
      let systemMessage :=
        match history with
        | m :: _ => if m.role = "system" then [m] else []
        | [] => []
      let recentMessages := history.drop (history.length - maxLength * 2)
      systemMessage ++ recentMessages
    else history
  { s with conversations := fun k => if k = userId then some newHistory else s.conversations k }

/-- `getMoodHistory(userId)`: the user's mood log, `[]` for an unknown
user. -/
def getMoodHistory (s : Store) (userId : String) : List MoodEntry :=
  match s.userData userId with
  | some user => user.moodData
  | none => []

/-- `setPremiumStatus(userId, isPremium)`: sets the premium flag, creating
a default user record when none exists. -/
def setPremiumStatus (userId : String) (isPremium : Bool) (now : Nat) (s : Store) : Store :=
  let user := (s.userData userId).getD { isPremium := false, lastActivity := now, moodData := [] }
  let user := { user with isPremium := isPremium }
  { s with userData := fun k => if k = userId then some user else s.userData k }

/-- `isPremiumUser(userId)`: the premium flag, `false` for an unknown
user. -/
def isPremiumUser (s : Store) (userId : String) : Bool :=
  match s.userData userId with
  | some user => user.isPremium
  | none => false

/-- `getConversationHistory(userId)`: the stored history, `[]` for an
unknown user. -/
def getConversationHistory (s : Store) (userId : String) : List ChatMessage :=
  (s.conversations userId).getD []

/-- `clearConversationHistory(userId)`: `conversations.delete(userId)`. -/
def clearConversationHistory (userId : String) (s : Store) : Store :=
  { s with conversations := fun k => if k = userId then none else s.conversations k }

/-- `getMoodEmoji(score)` of the Twilio variant. -/
def getMoodEmoji (score : Nat) : String :=
  if score ≥ 9 then "😁"
  else if score ≥ 7 then "😊"
  else if score ≥ 5 then "😐"
  else if score ≥ 3 then "😔"
  else "😢"

/-- Stable insertion of a mood entry into a list sorted by ascending
timestamp. -/
def insertByTimestamp (e : MoodEntry) : List MoodEntry → List MoodEntry
  | [] => [e]
  | x :: xs => if e.timestamp ≤ x.timestamp then e :: x :: xs else x :: insertByTimestamp e xs

/-- `[...moodData].sort((a, b) => a.timestamp - b.timestamp)` — a stable
ascending sort by timestamp, as ECMAScript `Array.prototype.sort`
guarantees. -/
def sortByTimestamp (l : List MoodEntry) : List MoodEntry :=
  l.foldr insertByTimestamp []

/-- External inputs of the handlers that the embedding abstracts:
the completion call (`processMessage`, prompt and history to reply text),
date rendering (`new Date(ts)` formatting, locale/time-zone dependent),
the floating-point mood average of the web variant, and
`process.env.ADMIN_CONTACT`. -/
structure Env where
  complete : String → List ChatMessage → String
  fmtDate : Nat → String
  fmtAvg : List MoodEntry → String
  adminContact : String

/-- One rendered line of the Twilio `sendMoodHistory`:
`` `${formattedDate}: ${entry.score}/10 ${emoji}\n` ``. -/
def moodLineTwilio (env : Env) (e : MoodEntry) : String :=
  env.fmtDate e.timestamp ++ ": " ++ toString e.score ++ "/10 " ++ getMoodEmoji e.score ++ "\n"

/-- `sendMoodHistory(userId)` of the Twilio variant: sort the mood log by
timestamp, render the last 10 entries (`slice(-10)`) in order after a
fixed header. -/
def sendMoodHistoryTwilio (env : Env) (userId : String) (s : Store) : String :=
  let moodData := getMoodHistory s userId
  if moodData.isEmpty then
    "You haven\x27t shared any mood data yet. You can track your mood by telling me \x27My mood is [1-10]\x27 anytime."
  else
    let sorted := sortByTimestamp moodData
    let shown := sorted.drop (sorted.length - 10)
    "*Your Mood History* 📊\n\n" ++ String.join (shown.map (moodLineTwilio env))

/-- `sendMoodHistory(userId)` of the whatsapp-web.js variant: last 7
entries unsorted, with a float average and a non-premium upsell note. -/
def sendMoodHistoryWeb (env : Env) (userId : String) (s : Store) : String :=
  let moodData := getMoodHistory s userId
  if moodData.isEmpty then
    "You haven\x27t recorded any mood data yet. Try saying \x27My mood is 7/10\x27 to start tracking!"
  else
    let recentMoods := moodData.drop (moodData.length - 7)
    let base := "*Your Mood History*\n\n" ++
      String.join (recentMoods.map (fun e =>
        env.fmtDate e.timestamp ++ ": " ++ toString e.score ++ "/10\n")) ++
      "\nAverage mood: " ++ env.fmtAvg recentMoods ++ "/10"
    if !isPremiumUser s userId && moodData.length > 7 then
      base ++ "\n\n_Upgrade to premium to see your complete mood history and detailed analysis!_"
    else base

/-- The attempt loop of `retryOperation(operation, maxRetries, baseDelay)`:
`op k` is the outcome of attempt `k` (`some` reply on success, `none` when
the operation throws).  Backoff delays do not affect the returned value
and are not modelled. -/
def retryOperationAux (op : Nat → Option String) : Nat → Nat → Option String
  | _, 0 => none
  | attempt, fuel + 1 =>
    match op attempt with
    | some r => some r
    | none => retryOperationAux op (attempt + 1) fuel

/-- `retryOperation`: up to `maxRetries` attempts, the first success wins;
exhausting the attempts rethrows the last error (modelled as `none`). -/
def retryOperation (op : Nat → Option String) (maxRetries : Nat) : Option String :=
  retryOperationAux op 0 maxRetries

/-- The result of handling one inbound message: the text sent back to the
user, and the store afterwards. -/
structure HandleResult where
  reply : String
  store : Store

/-- The fixed apology of the whatsapp-web.js message handler's catch
block. -/
def apologyMessageWeb : String :=
  "I\x27m sorry, I\x27m having trouble processing your message right now. Please try again later."

/-- The help text of the whatsapp-web.js `sendHelpMessage` (a template
literal, hence the leading and trailing newlines). -/
def helpMessageWeb : String :=
  "\n*Available Commands:*\n\n/help - Show this help message\n/upgrade - Get information about premium features\n/mood - View your mood history\n/clear - Clear your conversation history\n/exercise - Get a random coping exercise\n/affirmation - Get a positive affirmation\n\nYou can also type things like:\n- \"My mood is 7/10\" to track your mood\n- \"I need a coping exercise for anxiety\"\n- \"Give me an affirmation for confidence\"\n- \"I\x27m feeling stressed, what should I do?\"\n"

/-- `sendUpgradeInfo` of the whatsapp-web.js variant
(`env.adminContact` stands for `process.env.ADMIN_CONTACT ||
'support@example.com'`). -/
def sendUpgradeInfoWeb (env : Env) (userId : String) (s : Store) : String :=
  if isPremiumUser s userId then
    "You\x27re already a premium user! Thank you for your support."
  else
    "\n*Upgrade to Premium Features*\n\nGet more from your mental health coach:\n✅ Extended conversation history\n✅ Detailed mood tracking and analysis\n✅ Additional coping exercises and affirmations\n✅ Priority response times\n\nContact us at " ++ env.adminContact ++ " to upgrade!\n"

/-- The synthesized prompt of the whatsapp-web.js `handleExerciseRequest`. -/
def exercisePromptWeb : String :=
  "[COPING EXERCISE REQUEST] Please provide a coping exercise"

/-- The synthesized prompt of the whatsapp-web.js
`handleAffirmationRequest`. -/
def affirmationPromptWeb : String :=
  "[AFFIRMATION REQUEST] Please provide a positive affirmation"

/-- `handleExerciseRequest(message)` of the whatsapp-web.js variant: the
*synthesized* prompt is also what is persisted as the user turn. -/
def handleExerciseRequestWeb (env : Env) (userId : String) (now : Nat) (s : Store) :
    HandleResult :=
  let response := env.complete exercisePromptWeb (getConversationHistory s userId)
  { reply := response, store := saveConversation userId exercisePromptWeb response now s }

/-- `handleAffirmationRequest(message)` of the whatsapp-web.js variant. -/
def handleAffirmationRequestWeb (env : Env) (userId : String) (now : Nat) (s : Store) :
    HandleResult :=
  let response := env.complete affirmationPromptWeb (getConversationHistory s userId)
  { reply := response, store := saveConversation userId affirmationPromptWeb response now s }

/-- The synthesized prompt of the Twilio `handleExerciseRequest`. -/
def exercisePromptTwilio : String :=
  "[EXERCISE REQUEST] Please provide a helpful mental health coping exercise"

/-- The synthesized prompt of the Twilio `handleAffirmationRequest`. -/
def affirmationPromptTwilio : String :=
  "[AFFIRMATION REQUEST] Please provide a positive and supportive affirmation"

/-- `handleExerciseRequest(message)` of the Twilio variant: the *original*
`message.body` is persisted as the user turn. -/
def handleExerciseRequestTwilio (env : Env) (userId body : String) (now : Nat) (s : Store) :
    HandleResult :=
  let response := env.complete exercisePromptTwilio (getConversationHistory s userId)
  { reply := response, store := saveConversation userId body response now s }

/-- `handleAffirmationRequest(message)` of the Twilio variant. -/
def handleAffirmationRequestTwilio (env : Env) (userId body : String) (now : Nat) (s : Store) :
    HandleResult :=
  let response := env.complete affirmationPromptTwilio (getConversationHistory s userId)
  { reply := response, store := saveConversation userId body response now s }

/-- `handleCommand(message)` of the whatsapp-web.js variant: a switch on
the exact lower-cased first token. -/
def handleCommandWeb (env : Env) (userId body : String) (now : Nat) (s : Store) :
    HandleResult :=
  let command := commandToken body
  if command = "/help" then { reply := helpMessageWeb, store := s }
  else if command = "/upgrade" then { reply := sendUpgradeInfoWeb env userId s, store := s }
  else if command = "/mood" then { reply := sendMoodHistoryWeb env userId s, store := s }
  else if command = "/clear" then
    { reply := "Your conversation history has been cleared. I\x27m still here if you need to talk!",
      store := clearConversationHistory userId s }
  else if command = "/exercise" then handleExerciseRequestWeb env userId now s
  else if command = "/affirmation" then handleAffirmationRequestWeb env userId now s
  else
    { reply := "I don\x27t recognize that command. Type /help to see available commands.",
      store := s }

/-- The `client.on('message')` handler of the whatsapp-web.js variant,
restricted to its observable effect on the store and the sent reply:
commands are dispatched to `handleCommandWeb`; anything else goes to the
completion gateway through `retryOperation(…, 3, 2000)` (`gw k` is attempt
`k`); on success the exchange is saved, on exhausted retries the catch
block sends the fixed apology and saves nothing. -/
def clientOnMessageWeb (env : Env) (gw : Nat → Option String) (userId body : String)
    (now : Nat) (s : Store) : HandleResult :=
  if startsWithSlash body then handleCommandWeb env userId body now s
  else
    match retryOperation gw 3 with
    | some response =>
      { reply := response, store := saveConversation userId body response now s }
    | none => { reply := apologyMessageWeb, store := s }

/-- The history fragment produced by a list of `(userText, assistantText)`
turn-pairs, in order. -/
def turnsOf : List (String × String) → List ChatMessage
  | [] => []
  | p :: ps => ⟨"user", p.1⟩ :: ⟨"assistant", p.2⟩ :: turnsOf ps

/-- Iterated `saveConversation` over a list of turn-pairs (one call per
pair, oldest first). -/
def appendAll (userId : String) (now : Nat) : List (String × String) → Store → Store
  | [], s => s
  | p :: ps, s => appendAll userId now ps (saveConversation userId p.1 p.2 now s)

/-- A concrete environment for evaluating the handlers on closed inputs. -/
def trivialEnv : Env :=
  ⟨fun _ _ => "RESP", fun _ => "date", fun _ => "avg", "support@example.com"⟩

/-- A completion gateway whose every attempt fails. -/
def failGw : Nat → Option String := fun _ => none

/-- A completion gateway that fails on the first attempt and succeeds on
every later one. -/
def flakyGw : Nat → Option String := fun k => if k = 0 then none else some "RESP"

/-- A store holding the mood log `[(7, t1), (3, t2), (9, t3)]` for user
`"u"`, produced through `saveMoodData`. -/
def storeMoods739 : Store :=
  saveMoodData "u" 9 3 (saveMoodData "u" 3 2 (saveMoodData "u" 7 1 emptyStore))

/-- Eleven concrete turn-pairs, for evaluating the free-tier history
bound on a closed input. -/
def pairs11 : List (String × String) :=
  [("u1", "a1"), ("u2", "a2"), ("u3", "a3"), ("u4", "a4"), ("u5", "a5"), ("u6", "a6"),
   ("u7", "a7"), ("u8", "a8"), ("u9", "a9"), ("u10", "a10"), ("u11", "a11")]

/-- The post-push trim of `saveConversation`, on its own: keep a leading
system-role message plus the `maxLength * 2` most recent entries when the
bound is exceeded. -/
def trimHistory (maxLength : Nat) (history : List ChatMessage) : List ChatMessage :=
  if history.length > maxLength * 2 then
    (match history with
     | m :: _ => if m.role = "system" then [m] else []
     | [] => []) ++ history.drop (history.length - maxLength * 2)
  else history

theorem isPremium_getD_default (o : Option UserRecord) (now : Nat) :
    (o.getD { isPremium := false, lastActivity := now, moodData := [] }).isPremium =
      (match o with | some user => user.isPremium | none => false) := by
  cases o <;> rfl

theorem isPremiumUser_saveMoodData (s : Store) (id : String) (sc now : Nat) :
    isPremiumUser (saveMoodData id sc now s) id = isPremiumUser s id := by
  simp [isPremiumUser, saveMoodData, isPremium_getD_default]

theorem getConversationHistory_saveMoodData (s : Store) (id j : String) (sc now : Nat) :
    getConversationHistory (saveMoodData id sc now s) j = getConversationHistory s j := by
  rfl

/-- Characterization of the history stored by `saveConversation`: push the
two turns, then trim with the capacity chosen off the current premium
flag. -/
theorem getConversationHistory_saveConversation (s : Store) (id u a : String) (now : Nat) :
    getConversationHistory (saveConversation id u a now s) id =
      trimHistory (if isPremiumUser s id then PREMIUM_MAX_HISTORY_LENGTH else MAX_HISTORY_LENGTH)
        (getConversationHistory s id ++ [⟨"user", u⟩, ⟨"assistant", a⟩]) := by
  cases hm : moodRegexMatch u <;>
    simp [saveConversation, getConversationHistory, trimHistory, saveMoodData, hm,
      isPremium_getD_default, isPremiumUser]

/-- `saveConversation` stamps `lastActivity` with the current time. -/
theorem lastActivity_saveConversation (s : Store) (id u a : String) (now : Nat) :
    ((saveConversation id u a now s).userData id).map UserRecord.lastActivity = some now := by
  cases hm : moodRegexMatch u <;> simp [saveConversation, saveMoodData, hm]

/-- `saveConversation` does not change the premium flag. -/
theorem isPremiumUser_saveConversation (s : Store) (id u a : String) (now : Nat) :
    isPremiumUser (saveConversation id u a now s) id = isPremiumUser s id := by
  cases hm : moodRegexMatch u <;>
    simp [saveConversation, saveMoodData, isPremiumUser, isPremium_getD_default, hm]

/-- When no stored entry carries the system role, trimming caps the length
at `maxLength * 2`. -/
theorem trimHistory_length_le (maxLength : Nat) (h : List ChatMessage)
    (hsys : ∀ m ∈ h, m.role ≠ "system") :
    (trimHistory maxLength h).length ≤ maxLength * 2 := by
  unfold trimHistory
  split
  · next hgt =>
    cases h with
    | nil => simp at hgt
    | cons m t =>
      have hm : m.role ≠ "system" := hsys m (List.mem_cons_self m t)
      simp [hm]
      omega
  · next hle => omega

/-- With no system-role entry present, an over-long history trims to its
most recent `maxLength * 2` entries. -/
theorem trimHistory_eq_drop (maxLength : Nat) (h : List ChatMessage)
    (hgt : h.length > maxLength * 2) (hsys : ∀ m ∈ h, m.role ≠ "system") :
    trimHistory maxLength h = h.drop (h.length - maxLength * 2) := by
  unfold trimHistory
  rw [if_pos hgt]
  cases h with
  | nil => simp at hgt
  | cons m t =>
    have hm : m.role ≠ "system" := hsys m (List.mem_cons_self m t)
    simp [hm]

/-- Trimming preserves the two just-pushed turns at the end. -/
theorem trimHistory_append_suffix (maxLength : Nat) (pre : List ChatMessage)
    (u a : ChatMessage) (hmax : 1 ≤ maxLength) :
    ∃ q, trimHistory maxLength (pre ++ [u, a]) = q ++ [u, a] := by
  unfold trimHistory
  split
  · next hgt =>
    refine ⟨(match pre ++ [u, a] with
             | m :: _ => if m.role = "system" then [m] else []
             | [] => []) ++ pre.drop ((pre ++ [u, a]).length - maxLength * 2), ?_⟩
    rw [List.drop_append_eq_append_drop]
    have hz : (pre ++ [u, a]).length - maxLength * 2 - pre.length = 0 := by
      simp at hgt ⊢
      omega
    rw [hz]
    simp [List.append_assoc]
  · next => exact ⟨pre, rfl⟩

theorem turnsOf_append (xs ys : List (String × String)) :
    turnsOf (xs ++ ys) = turnsOf xs ++ turnsOf ys := by
  induction xs with
  | nil => rfl
  | cons p ps ih => simp [turnsOf, ih]

theorem length_turnsOf (xs : List (String × String)) :
    (turnsOf xs).length = 2 * xs.length := by
  induction xs with
  | nil => rfl
  | cons p ps ih => simp [turnsOf, ih]; omega

theorem turnsOf_role_ne_system (xs : List (String × String)) :
    ∀ m ∈ turnsOf xs, m.role ≠ "system" := by
  induction xs with
  | nil => intro m hm; simp [turnsOf] at hm
  | cons p ps ih =>
    intro m hm
    simp only [turnsOf, List.mem_cons] at hm
    rcases hm with h | h | h
    · subst h; simp
    · subst h; simp
    · exact ih m h

/-- A turn list short enough never gets trimmed at free capacity. -/
theorem trimHistory_turnsOf_le (q : List (String × String)) (hq : q.length ≤ 10) :
    trimHistory MAX_HISTORY_LENGTH (turnsOf q) = turnsOf q := by
  unfold trimHistory
  rw [length_turnsOf]
  have : ¬ 2 * q.length > MAX_HISTORY_LENGTH * 2 := by
    simp [MAX_HISTORY_LENGTH]; omega
  simp [this]

/-- Eleven turn-pairs trim to the last ten at free capacity. -/
theorem trimHistory_turnsOf_eleven (x : String × String) (q : List (String × String))
    (hq : q.length = 10) :
    trimHistory MAX_HISTORY_LENGTH (turnsOf (x :: q)) = turnsOf q := by
  unfold trimHistory
  rw [length_turnsOf]
  have hgt : 2 * (x :: q).length > MAX_HISTORY_LENGTH * 2 := by
    simp [MAX_HISTORY_LENGTH, hq]
  have hcount : 2 * (x :: q).length - MAX_HISTORY_LENGTH * 2 = 2 := by
    simp [MAX_HISTORY_LENGTH, hq]
  rw [if_pos hgt, hcount]
  simp [turnsOf]

/-- A stable ascending sort leaves an already chronological list
untouched. -/
theorem sortByTimestamp_eq_self (l : List MoodEntry)
    (hc : List.Chain' (fun x y => x.timestamp ≤ y.timestamp) l) :
    sortByTimestamp l = l := by
  induction l with
  | nil => rfl
  | cons e t ih =>
    have ht : sortByTimestamp t = t := ih hc.tail
    unfold sortByTimestamp at ht ⊢
    simp only [List.foldr_cons, ht]
    cases t with
    | nil => rfl
    | cons x xs =>
      have hle : e.timestamp ≤ x.timestamp := (List.chain'_cons.mp hc).1
      simp [insertByTimestamp, hle]

/-- FIFO behaviour of repeated appends for a free user: starting from any
state whose stored history is the turn list of at most ten pairs, the
stored history is always the turn list of the last ten pairs seen. -/
theorem appendAll_free (id : String) (now : Nat) :
    ∀ (ps r : List (String × String)) (s : Store),
      getConversationHistory s id = turnsOf r →
      r.length ≤ 10 →
      isPremiumUser s id = false →
      getConversationHistory (appendAll id now ps s) id =
        turnsOf ((r ++ ps).drop ((r ++ ps).length - 10)) := by
  intro ps
  induction ps with
  | nil =>
    intro r s hh hr hp
    simp only [appendAll, List.append_nil]
    rw [Nat.sub_eq_zero_of_le hr, List.drop_zero]
    exact hh
  | cons p ps ih =>
    intro r s hh hr hp
    have hstep : getConversationHistory (saveConversation id p.1 p.2 now s) id =
        trimHistory MAX_HISTORY_LENGTH (turnsOf (r ++ [p])) := by
      rw [getConversationHistory_saveConversation, hp, hh, turnsOf_append]
      rfl
    have hprem : isPremiumUser (saveConversation id p.1 p.2 now s) id = false := by
      rw [isPremiumUser_saveConversation, hp]
    by_cases hlen : r.length = 10
    · cases r with
      | nil => simp at hlen
      | cons x r0 =>
        have hr0 : (r0 ++ [p]).length = 10 := by
          simp at hlen ⊢
          omega
        have hh1 : getConversationHistory (saveConversation id p.1 p.2 now s) id =
            turnsOf (r0 ++ [p]) := by
          rw [hstep]
          have : (x :: r0) ++ [p] = x :: (r0 ++ [p]) := rfl
          rw [this, trimHistory_turnsOf_eleven x (r0 ++ [p]) hr0]
        have := ih (r0 ++ [p]) (saveConversation id p.1 p.2 now s) hh1 (le_of_eq hr0) hprem
        rw [show appendAll id now (p :: ps) s =
            appendAll id now ps (saveConversation id p.1 p.2 now s) from rfl, this]
        have hlist : (x :: r0) ++ (p :: ps) = x :: ((r0 ++ [p]) ++ ps) := by
          simp
        rw [hlist]
        have hlenl : ((r0 ++ [p]) ++ ps).length = 10 + ps.length := by
          rw [List.length_append, hr0]
        have hlen2 : (x :: ((r0 ++ [p]) ++ ps)).length - 10 =
            (((r0 ++ [p]) ++ ps).length - 10) + 1 := by
          simp only [List.length_cons, hlenl]
          omega
        rw [hlen2, List.drop_succ_cons]
    · have hr9 : (r ++ [p]).length ≤ 10 := by
        simp
        omega
      have hh1 : getConversationHistory (saveConversation id p.1 p.2 now s) id =
          turnsOf (r ++ [p]) := by
        rw [hstep, trimHistory_turnsOf_le (r ++ [p]) hr9]
      have := ih (r ++ [p]) (saveConversation id p.1 p.2 now s) hh1 hr9 hprem
      rw [show appendAll id now (p :: ps) s =
          appendAll id now ps (saveConversation id p.1 p.2 now s) from rfl, this]
      have hlist : r ++ (p :: ps) = (r ++ [p]) ++ ps := by simp
      rw [hlist]

/-- Only a lead-in alternative makes the mood regex match: a successful
match implies one of the four lead-in phrases is a prefix of the lowered
text. -/
theorem moodMatchAux_leadin :
    ∀ (ls : List (List Char)) (t : List Char) (n : Nat),
      moodMatchAux ls t = some n → ∃ p ∈ ls, p.isPrefixOf t = true := by
  intro ls
  induction ls with
  | nil => intro t n h; simp [moodMatchAux] at h
  | cons p ps ih =>
    intro t n h
    unfold moodMatchAux at h
    by_cases hp : p.isPrefixOf t = true
    · exact ⟨p, List.mem_cons_self p ps, hp⟩
    · rw [if_neg (by simpa using hp)] at h
      obtain ⟨q, hq, hq2⟩ := ih t n h
      exact ⟨q, List.mem_cons_of_mem p hq, hq2⟩

/-- C3 (confirmed): the mood pattern accepts exactly the integer scores 1
through 10: "My mood is 10/10" classifies as a mood report of 10, while
"my mood is 11" and "mood 0" fall through to freeform because 11 and 0
are out of range. -/
theorem claim_C3_mood_regex_boundary :
    classify "My mood is 10/10" = Intent.MoodReport 10 ∧
    classify "my mood is 11" = Intent.Freeform ∧
    classify "mood 0" = Intent.Freeform := by
  refine ⟨by decide, by decide, by decide⟩

/-- C4 counterexample: a bare in-range score with trailing "/10" and no
lead-in phrase, "7/10", is NOT classified as a mood report — the lead-in
group of the regex is not optional — so it classifies as freeform. -/
theorem claim_C4_counterexample :
    classify "7/10" ≠ Intent.MoodReport 7 ∧ classify "7/10" = Intent.Freeform := by
  refine ⟨by decide, by decide⟩

/-- C4 (amended): the lead-in phrase of the mood pattern is required, not
optional: every successful mood match starts with one of the four lead-in
phrases, so the bare "7/10" is freeform; what is optional is the
separator after the lead-in, e.g. "mood7" is a mood report of 7. -/
theorem claim_C4_leadin_required :
    (∀ (text : String) (n : Nat), moodRegexMatch text = some n →
      ∃ p ∈ moodLeadIns, p.isPrefixOf (lowerChars text) = true) ∧
    classify "7/10" = Intent.Freeform ∧
    classify "mood7" = Intent.MoodReport 7 := by
  refine ⟨fun text n h => moodMatchAux_leadin moodLeadIns (lowerChars text) n h,
    by decide, by decide⟩

/-- Witness for C4 (amended) at a concrete matching input. -/
theorem claim_C4_leadin_required_witness :
    ∃ p ∈ moodLeadIns, p.isPrefixOf (lowerChars "My mood is 8") = true :=
  claim_C4_leadin_required.1 "My mood is 8" 8 (by decide)

/-- C5 counterexample: a non-command, non-mood message containing both a
coping-exercise phrase and an affirmation phrase classifies as an
affirmation request, not an exercise request. -/
theorem claim_C5_counterexample :
    startsWithSlash "I need a coping exercise and an affirmation" = false ∧
    moodRegexMatch "I need a coping exercise and an affirmation" = none ∧
    mentionsExercise "I need a coping exercise and an affirmation" = true ∧
    mentionsAffirmation "I need a coping exercise and an affirmation" = true ∧
    classify "I need a coping exercise and an affirmation" = Intent.AffirmationRequest ∧
    Intent.AffirmationRequest ≠ Intent.ExerciseRequest := by
  refine ⟨by decide, by decide, by decide, by decide, by decide, by decide⟩

/-- C5 (amended): the exercise check is indeed tested before the
affirmation check, but the two are independent `if`s and the later
affirmation check overwrites the tag; an exercise-phrase message yields
`ExerciseRequest` (and the exercise marker on the upstream prompt) only
when no affirmation phrase is present, and yields `AffirmationRequest`
(with the affirmation marker) when one is. -/
theorem claim_C5_affirmation_overrides (text : String)
    (hs : startsWithSlash text = false) (he : mentionsExercise text = true) :
    (mentionsAffirmation text = false →
      classify text = Intent.ExerciseRequest ∧
      processMessagePrompt text = "[COPING EXERCISE REQUEST] " ++ text) ∧
    (mentionsAffirmation text = true →
      classify text = Intent.AffirmationRequest ∧
      processMessagePrompt text = "[AFFIRMATION REQUEST] " ++ text) := by
  constructor
  · intro ha
    constructor <;> simp [classify, processMessagePrompt, hs, he, ha]
  · intro ha
    constructor <;> simp [classify, processMessagePrompt, hs, he, ha]

/-- Witness for C5 (amended) at a concrete input containing both
phrases. -/
theorem claim_C5_affirmation_overrides_witness :
    classify "please give me an affirmation and a coping exercise" =
      Intent.AffirmationRequest ∧
    processMessagePrompt "please give me an affirmation and a coping exercise" =
      "[AFFIRMATION REQUEST] " ++ "please give me an affirmation and a coping exercise" :=
  (claim_C5_affirmation_overrides "please give me an affirmation and a coping exercise"
    (by decide) (by decide)).2 (by decide)

/-- C1 (confirmed): after every `saveConversation` the stored history has
length at most `2 * capacity`, capacity being 10 (free) or 50 (premium)
read off the current profile flag (stated for states whose history holds
no system-role entry — the only histories the store API can produce);
and iterating appends from scratch for a free user leaves exactly the
turn list of the last ten user/assistant pairs, in order. -/
theorem claim_C1_history_bound :
    (∀ (s : Store) (id u a : String) (now : Nat),
      (∀ m ∈ getConversationHistory s id, m.role ≠ "system") →
      (getConversationHistory (saveConversation id u a now s) id).length ≤
        2 * (if isPremiumUser s id then 50 else 10)) ∧
    (∀ (ps : List (String × String)) (id : String) (now : Nat),
      10 ≤ ps.length →
      getConversationHistory (appendAll id now ps emptyStore) id =
        turnsOf (ps.drop (ps.length - 10))) := by
  constructor
  · intro s id u a now hsys
    rw [getConversationHistory_saveConversation]
    have hall : ∀ m ∈ getConversationHistory s id ++
        [(⟨"user", u⟩ : ChatMessage), ⟨"assistant", a⟩], m.role ≠ "system" := by
      intro m hm
      rcases List.mem_append.mp hm with h | h
      · exact hsys m h
      · simp only [List.mem_cons, List.not_mem_nil, or_false] at h
        rcases h with h | h <;> subst h <;> simp
    have hb := trimHistory_length_le
      (if isPremiumUser s id then PREMIUM_MAX_HISTORY_LENGTH else MAX_HISTORY_LENGTH)
      (getConversationHistory s id ++ [⟨"user", u⟩, ⟨"assistant", a⟩]) hall
    by_cases hp : isPremiumUser s id <;>
      simp [hp, PREMIUM_MAX_HISTORY_LENGTH, MAX_HISTORY_LENGTH] at hb ⊢ <;> omega
  · intro ps id now hps
    have h := appendAll_free id now ps [] emptyStore rfl (by simp) rfl
    simpa using h

/-- Witness for C1 at concrete inputs: a single append to the empty store
respects the free bound, and eleven appended pairs leave the last ten. -/
theorem claim_C1_history_bound_witness :
    ((getConversationHistory (saveConversation "u" "hi" "ok" 7 emptyStore) "u").length ≤
      2 * (if isPremiumUser emptyStore "u" then 50 else 10)) ∧
    getConversationHistory (appendAll "u" 7 pairs11 emptyStore) "u" =
      turnsOf (pairs11.drop (pairs11.length - 10)) :=
  ⟨claim_C1_history_bound.1 emptyStore "u" "hi" "ok" 7 (by decide),
   claim_C1_history_bound.2 pairs11 "u" 7 (by decide)⟩

/-- C2 (confirmed): when every one of the three gateway attempts fails,
the inbound-message handler replies with the fixed apology and leaves the
store — in particular the user's conversation history — untouched. -/
theorem claim_C2_exhausted_retries (env : Env) (gw : Nat → Option String)
    (userId body : String) (now : Nat) (s : Store)
    (h0 : gw 0 = none) (h1 : gw 1 = none) (h2 : gw 2 = none)
    (hs : startsWithSlash body = false) :
    (clientOnMessageWeb env gw userId body now s).reply = apologyMessageWeb ∧
    (clientOnMessageWeb env gw userId body now s).store = s := by
  have hr : retryOperation gw 3 = none := by
    simp [retryOperation, retryOperationAux, h0, h1, h2]
  constructor <;> simp [clientOnMessageWeb, hs, hr]

/-- Witness for C2 at a concrete always-failing gateway. -/
theorem claim_C2_exhausted_retries_witness :
    (clientOnMessageWeb trivialEnv failGw "u" "hello" 3 emptyStore).reply =
      apologyMessageWeb ∧
    (clientOnMessageWeb trivialEnv failGw "u" "hello" 3 emptyStore).store = emptyStore :=
  claim_C2_exhausted_retries trivialEnv failGw "u" "hello" 3 emptyStore rfl rfl rfl (by decide)

/-- The two just-pushed turns survive any trim at the end of the stored
history. -/
theorem saveConversation_suffix (s : Store) (id u a : String) (now : Nat) :
    ∃ q, getConversationHistory (saveConversation id u a now s) id =
      q ++ [⟨"user", u⟩, ⟨"assistant", a⟩] := by
  rw [getConversationHistory_saveConversation]
  apply trimHistory_append_suffix
  by_cases hp : isPremiumUser s id <;>
    simp [hp, PREMIUM_MAX_HISTORY_LENGTH, MAX_HISTORY_LENGTH]

/-- C6 counterexample: handling "/exercise" in the whatsapp-web.js variant
persists the synthesized tagged prompt, not the user's original message
text, as the stored user turn. -/
theorem claim_C6_counterexample :
    getConversationHistory (handleCommandWeb trivialEnv "u" "/exercise" 0 emptyStore).store "u" =
      [⟨"user", exercisePromptWeb⟩, ⟨"assistant", "RESP"⟩] ∧
    exercisePromptWeb ≠ "/exercise" := by
  refine ⟨by decide, by decide⟩

/-- C6 (amended): the Twilio variant persists the user's original message
text as the stored user turn of the `/exercise` and `/affirmation`
commands, while the whatsapp-web.js variant persists the synthesized
tagged prompt that was forwarded upstream. -/
theorem claim_C6_persisted_user_turn (env : Env) (userId body : String) (now : Nat)
    (s : Store) :
    (∃ q, getConversationHistory
        (handleExerciseRequestTwilio env userId body now s).store userId =
      q ++ [⟨"user", body⟩,
            ⟨"assistant", env.complete exercisePromptTwilio (getConversationHistory s userId)⟩]) ∧
    (∃ q, getConversationHistory
        (handleAffirmationRequestTwilio env userId body now s).store userId =
      q ++ [⟨"user", body⟩,
            ⟨"assistant", env.complete affirmationPromptTwilio (getConversationHistory s userId)⟩]) ∧
    (∃ q, getConversationHistory
        (handleExerciseRequestWeb env userId now s).store userId =
      q ++ [⟨"user", exercisePromptWeb⟩,
            ⟨"assistant", env.complete exercisePromptWeb (getConversationHistory s userId)⟩]) ∧
    (∃ q, getConversationHistory
        (handleAffirmationRequestWeb env userId now s).store userId =
      q ++ [⟨"user", affirmationPromptWeb⟩,
            ⟨"assistant", env.complete affirmationPromptWeb (getConversationHistory s userId)⟩]) := by
  refine ⟨?_, ?_, ?_, ?_⟩ <;> exact saveConversation_suffix _ _ _ _ _

/-- C7 (confirmed): `setPremiumStatus(id, true)` retains all existing
history entries, and subsequent appends use capacity 50: no entry is
dropped while the pushed history stays within `2 * 50`, and beyond that
the trim keeps the most recent `2 * 50` entries. -/
theorem claim_C7_premium_capacity_switch (s : Store) (id u a : String) (now now2 : Nat) :
    getConversationHistory (setPremiumStatus id true now s) id =
      getConversationHistory s id ∧
    isPremiumUser (setPremiumStatus id true now s) id = true ∧
    ((getConversationHistory s id).length + 2 ≤ 2 * 50 →
      getConversationHistory (saveConversation id u a now2 (setPremiumStatus id true now s)) id =
        getConversationHistory s id ++ [⟨"user", u⟩, ⟨"assistant", a⟩]) ∧
    (2 * 50 < (getConversationHistory s id).length + 2 →
      (∀ m ∈ getConversationHistory s id, m.role ≠ "system") →
      getConversationHistory (saveConversation id u a now2 (setPremiumStatus id true now s)) id =
        (getConversationHistory s id ++
            ([⟨"user", u⟩, ⟨"assistant", a⟩] : List ChatMessage)).drop
          ((getConversationHistory s id).length + 2 - 2 * 50)) := by
  have hup : isPremiumUser (setPremiumStatus id true now s) id = true := by
    simp [isPremiumUser, setPremiumStatus]
  have hhist : getConversationHistory (setPremiumStatus id true now s) id =
      getConversationHistory s id := rfl
  refine ⟨rfl, hup, ?_, ?_⟩
  · intro hlen
    rw [getConversationHistory_saveConversation, hup, hhist]
    unfold trimHistory
    rw [if_neg]
    simp [PREMIUM_MAX_HISTORY_LENGTH]
    omega
  · intro hlen hsys
    rw [getConversationHistory_saveConversation, hup, hhist]
    rw [trimHistory_eq_drop]
    · congr 1
      simp [PREMIUM_MAX_HISTORY_LENGTH]
    · simp [PREMIUM_MAX_HISTORY_LENGTH]
      omega
    · intro m hm
      rcases List.mem_append.mp hm with h | h
      · exact hsys m h
      · simp only [List.mem_cons, List.not_mem_nil, or_false] at h
        rcases h with h | h <;> subst h <;> simp

/-- Witness for C7: an upgraded empty-history user keeps both pushed
turns. -/
theorem claim_C7_premium_capacity_switch_witness :
    getConversationHistory
        (saveConversation "u" "x" "y" 1 (setPremiumStatus "u" true 0 emptyStore)) "u" =
      getConversationHistory emptyStore "u" ++ [⟨"user", "x"⟩, ⟨"assistant", "y"⟩] :=
  (claim_C7_premium_capacity_switch emptyStore "u" "x" "y" 0 1).2.2.1 (by decide)

/-- C8 (confirmed): for every non-empty chronological mood log, the
`/mood` output of the Twilio variant lists the shown (up to ten most
recent) entries oldest first, each line carrying the threshold emoji; in
particular scores 7, 3, 9 render happy, sad, joyful in that order. -/
theorem claim_C8_mood_history_format :
    (∀ (env : Env) (s : Store) (userId : String),
      getMoodHistory s userId ≠ [] →
      List.Chain' (fun x y => x.timestamp ≤ y.timestamp) (getMoodHistory s userId) →
      sendMoodHistoryTwilio env userId s =
        "*Your Mood History* 📊\n\n" ++
          String.join
            (((getMoodHistory s userId).drop ((getMoodHistory s userId).length - 10)).map
              (moodLineTwilio env))) ∧
    sendMoodHistoryTwilio trivialEnv "u" storeMoods739 =
      "*Your Mood History* 📊\n\ndate: 7/10 😊\ndate: 3/10 😔\ndate: 9/10 😁\n" := by
  constructor
  · intro env s userId hne hchain
    unfold sendMoodHistoryTwilio
    rw [if_neg (by simp [List.isEmpty_iff, hne])]
    rw [sortByTimestamp_eq_self _ hchain]
  · decide

/-- Witness for C8 at the concrete three-entry log. -/
theorem claim_C8_mood_history_format_witness :
    sendMoodHistoryTwilio trivialEnv "u" storeMoods739 =
      "*Your Mood History* 📊\n\n" ++
        String.join (((getMoodHistory storeMoods739 "u").drop
          ((getMoodHistory storeMoods739 "u").length - 10)).map (moodLineTwilio trivialEnv)) := by
  have hlog : getMoodHistory storeMoods739 "u" =
      [⟨7, 1⟩, ⟨3, 2⟩, ⟨9, 3⟩] := by decide
  exact claim_C8_mood_history_format.1 trivialEnv storeMoods739 "u" (by decide)
    (by rw [hlog]; simp [List.chain'_cons])

/-- C9 counterexample: handling the inbound command "/help" at time 99
leaves a pre-existing `lastActivity` of 5 unchanged. -/
theorem claim_C9_counterexample :
    ((clientOnMessageWeb trivialEnv failGw "u" "/help" 99
        (setPremiumStatus "u" false 5 emptyStore)).store.userData "u").map
      UserRecord.lastActivity = some 5 ∧ (5 : Nat) ≠ 99 := by
  refine ⟨by decide, by decide⟩

/-- C9 (amended): `lastActivity` is refreshed only on the paths that call
`saveConversation`: non-command messages whose gateway call succeeds, and
the `/exercise` and `/affirmation` commands; the `/help`, `/upgrade`,
`/mood`, `/clear` and unrecognized commands leave the user-profile map
untouched. -/
theorem claim_C9_lastActivity (env : Env) (gw : Nat → Option String)
    (userId body : String) (now : Nat) (s : Store) :
    (startsWithSlash body = false → ∀ r, retryOperation gw 3 = some r →
      ((clientOnMessageWeb env gw userId body now s).store.userData userId).map
        UserRecord.lastActivity = some now) ∧
    (startsWithSlash body = true → commandToken body ≠ "/exercise" →
      commandToken body ≠ "/affirmation" →
      (clientOnMessageWeb env gw userId body now s).store.userData = s.userData) ∧
    ((commandToken body = "/exercise" ∨ commandToken body = "/affirmation") →
      startsWithSlash body = true →
      ((clientOnMessageWeb env gw userId body now s).store.userData userId).map
        UserRecord.lastActivity = some now) := by
  refine ⟨?_, ?_, ?_⟩
  · intro hs r hr
    simp only [clientOnMessageWeb, hs, Bool.false_eq_true, if_false, hr]
    exact lastActivity_saveConversation s userId body r now
  · intro hs h1 h2
    simp only [clientOnMessageWeb, hs, if_true]
    simp only [handleCommandWeb]
    split_ifs <;> rfl
  · intro hc hs
    simp only [clientOnMessageWeb, hs, if_true]
    simp only [handleCommandWeb]
    rcases hc with hc | hc <;> rw [hc]
    · rw [if_neg (by decide), if_neg (by decide), if_neg (by decide), if_neg (by decide),
        if_pos rfl]
      exact lastActivity_saveConversation s userId exercisePromptWeb _ now
    · rw [if_neg (by decide), if_neg (by decide), if_neg (by decide), if_neg (by decide),
        if_neg (by decide), if_pos rfl]
      exact lastActivity_saveConversation s userId affirmationPromptWeb _ now

/-- Witness for C9 (amended): a non-command message whose gateway call
succeeds on the second attempt, and the "/exercise" command, both stamp
`lastActivity` with the current time. -/
theorem claim_C9_lastActivity_witness :
    ((clientOnMessageWeb trivialEnv flakyGw "u" "hello" 7 emptyStore).store.userData
        "u").map UserRecord.lastActivity = some 7 ∧
    ((clientOnMessageWeb trivialEnv failGw "u" "/exercise" 42 emptyStore).store.userData
        "u").map UserRecord.lastActivity = some 42 :=
  ⟨(claim_C9_lastActivity trivialEnv flakyGw "u" "hello" 7 emptyStore).1
      (by decide) "RESP" (by decide),
   (claim_C9_lastActivity trivialEnv failGw "u" "/exercise" 42 emptyStore).2.2
      (Or.inl (by decide)) (by decide)⟩

/-- C10 (confirmed): `clearConversationHistory(id)` removes exactly the
conversation history of `id`: the whole user-profile map (premium flag,
mood log, `lastActivity`) is unchanged, other users' histories are
unchanged, and a subsequent read of `id`'s history is empty. -/
theorem claim_C10_clear_frame (s : Store) (id : String) :
    (clearConversationHistory id s).userData = s.userData ∧
    getMoodHistory (clearConversationHistory id s) id = getMoodHistory s id ∧
    isPremiumUser (clearConversationHistory id s) id = isPremiumUser s id ∧
    getConversationHistory (clearConversationHistory id s) id = [] ∧
    (∀ j, j ≠ id → getConversationHistory (clearConversationHistory id s) j =
      getConversationHistory s j) := by
  refine ⟨rfl, rfl, rfl, ?_, ?_⟩
  · simp [getConversationHistory, clearConversationHistory]
  · intro j hj
    simp [getConversationHistory, clearConversationHistory, hj]

/-- Witness for C10 at a concrete store with profile data and two
histories. -/
theorem claim_C10_clear_frame_witness :
    getMoodHistory (clearConversationHistory "u" storeMoods739) "u" =
      getMoodHistory storeMoods739 "u" ∧
    getConversationHistory (clearConversationHistory "u" storeMoods739) "v" =
      getConversationHistory storeMoods739 "v" :=
  ⟨(claim_C10_clear_frame storeMoods739 "u").2.1,
   (claim_C10_clear_frame storeMoods739 "u").2.2.2.2 "v" (by decide)⟩

end TheraBot
